import Mathlib

/-! ChatterSplash front end: socket lifecycle and inbound event routing.

A shallow embedding of `src/context/SocketContext.jsx`:

* the two socket listeners `handleRecieveMessage` and
  `handleRecieveChannelMessage`, as functions from the store snapshot read by
  `useAppStore.getState()` and the delivered message to the ordered list of
  store actions they invoke (or the `TypeError` they raise);
* the `useEffect` of `SocketProvider`, as a step function on the component
  state together with the handles opened through `io(...)`.

JavaScript values that may be `undefined` are `Option`s; reading a property of
`undefined` raises `JsError.typeError`.
-/

namespace ChatterSplash

/-! ## Values -/

/-- The exception raised by a property read on `undefined`. -/
inductive JsError where
  | typeError
  deriving DecidableEq, Repr

/-- An object carrying an `_id` property (a contact, a channel, a populated
sender or recipient).  `none` is an object without that property, whose read
yields `undefined`. -/
structure Doc where
  _id : Option String
  deriving DecidableEq, Repr

/-- Modelled from the spec: the values of `selectedChatType` other than
`undefined`.  The chat slice that sets them is not part of the sources; the
spec names the two conversation kinds, direct-message (`contact`) and
`channel`.  The listeners only ever compare `selectedChatType` with
`undefined`. -/
inductive ChatKind where
  | contact
  | channel
  deriving DecidableEq, Repr

/-- The payload of an inbound socket event, restricted to the properties the
listeners read, plus its content. -/
structure Message where
  sender : Option Doc
  recipient : Option Doc
  channelId : Option String
  content : String
  deriving DecidableEq, Repr

/-- The part of `useAppStore.getState()` the listeners read. -/
structure Selection where
  selectedChatType : Option ChatKind
  selectedChatData : Option Doc
  deriving DecidableEq, Repr

/-- A call of one of the store actions obtained from `useAppStore.getState()`. -/
inductive StoreCall where
  | addMessage (message : Message)
  | addContactsInDMContacts (message : Message)
  | addChannelInChannelList (message : Message)
  deriving DecidableEq, Repr

/-- What one run of a listener did: the store actions it called, in order, and
the exception that ended it, if any. -/
structure Outcome where
  calls : List StoreCall
  error : Option JsError
  deriving DecidableEq, Repr

/-! ## Event router -/

/-- The property read `o._id`: a `TypeError` when `o` is `undefined`. -/
def readId : Option Doc → Except JsError (Option String)
  | none => .error .typeError
  | some d => .ok d._id

/-- The condition of the `if` in `handleRecieveMessage`:
`selectedChatType !== undefined && (selectedChatData._id === message.sender._id
|| selectedChatData._id === message.recipient._id)`, evaluated left to right
with short-circuiting. -/
def dmCondition (st : Selection) (message : Message) : Except JsError Bool :=
  match st.selectedChatType with
  | none => .ok false
  | some _ =>
    match readId st.selectedChatData with
    | .error e => .error e
    | .ok a =>
      match readId message.sender with
      | .error e => .error e
      | .ok b =>
        if a = b then .ok true
        else
          match readId st.selectedChatData with
          | .error e => .error e
          | .ok c =>
            match readId message.recipient with
            | .error e => .error e
            | .ok d => .ok (decide (c = d))

/-- The condition of the `if` in `handleRecieveChannelMessage`:
`selectedChatType !== undefined && selectedChatData._id === message.channelId`. -/
def channelCondition (st : Selection) (message : Message) : Except JsError Bool :=
  match st.selectedChatType with
  | none => .ok false
  | some _ =>
    match readId st.selectedChatData with
    | .error e => .error e
    | .ok a => .ok (decide (a = message.channelId))

/-- The listener of `"recieveMessage"`. -/
def handleRecieveMessage (st : Selection) (message : Message) : Outcome :=
  match dmCondition st message with
  | .error e => ⟨[], some e⟩
  | .ok true => ⟨[.addMessage message, .addContactsInDMContacts message], none⟩
  | .ok false => ⟨[.addContactsInDMContacts message], none⟩

/-- The listener of `"recieve-channel-message"`. -/
def handleRecieveChannelMessage (st : Selection) (message : Message) : Outcome :=
  match channelCondition st message with
  | .error e => ⟨[], some e⟩
  | .ok true => ⟨[.addMessage message, .addChannelInChannelList message], none⟩
  | .ok false => ⟨[.addChannelInChannelList message], none⟩

/-- A direct-message event carries both its sender and its recipient. -/
def wellFormedDM (m : Message) : Bool :=
  m.sender.isSome && m.recipient.isSome

/-- A channel event carries its `channelId`. -/
def wellFormedChannel (m : Message) : Bool :=
  m.channelId.isSome

/-- The store action is one of the two Roster Store updates. -/
def StoreCall.isRoster : StoreCall → Bool
  | .addMessage _ => false
  | .addContactsInDMContacts _ => true
  | .addChannelInChannelList _ => true

/-- The messages handed to `addMessage` by a list of calls, in order. -/
def appendedBy : List StoreCall → List Message
  | [] => []
  | .addMessage m :: rest => m :: appendedBy rest
  | _ :: rest => appendedBy rest

/-! ## Timelines of selection changes and inbound events -/

/-- The application store as far as the router is concerned: the Selection
State it reads, the Conversation Store, and the Roster Store updates received. -/
structure Store where
  selection : Selection
  selectedChatMessages : List Message
  rosterUpdates : List StoreCall
  deriving DecidableEq, Repr

/-- Modelled from the spec: the store actions of the chat slice, which is not
part of the sources.  `addMessage` is the Conversation Store's
`append(message)`, adding at the end of the ordered sequence; the two Roster
Store updates are kept as the sequence of update requests received, the roster
contents themselves not being needed here. -/
def Store.apply (s : Store) : StoreCall → Store
  | .addMessage m => { s with selectedChatMessages := s.selectedChatMessages ++ [m] }
  | c => { s with rosterUpdates := s.rosterUpdates ++ [c] }

/-- One point of the single-threaded timeline: either user navigation writes
the Selection State, or one of the two socket events is delivered. -/
inductive TimelineItem where
  | select (sel : Selection)
  | recieveMessage (message : Message)
  | recieveChannelMessage (message : Message)
  deriving DecidableEq, Repr

/-- Processing of one timeline item: a listener reads the selection from the
store at that moment and its store calls are applied in order. -/
def Store.process (s : Store) : TimelineItem → Store
  | .select sel => { s with selection := sel }
  | .recieveMessage m => (handleRecieveMessage s.selection m).calls.foldl Store.apply s
  | .recieveChannelMessage m => (handleRecieveChannelMessage s.selection m).calls.foldl Store.apply s

/-- Processing of a whole timeline, in order. -/
def Store.runTimeline (s : Store) (tl : List TimelineItem) : Store :=
  tl.foldl Store.process s

/-- The Selection State after one timeline item: only navigation writes it. -/
def nextSelection (sel : Selection) : TimelineItem → Selection
  | .select s => s
  | _ => sel

/-- The Selection State held when the item at position `i` of the timeline is
processed: the last selection written before that position, or the initial one. -/
def selectionAt (sel0 : Selection) (tl : List TimelineItem) (i : Nat) : Selection :=
  (tl.take i).foldl nextSelection sel0

/-- The scope test of the spec for a direct-message event: the Selection is of
kind direct-message and its target id equals the sender id or the recipient id. -/
def specDirectScope (sel : Selection) (m : Message) : Bool :=
  match sel.selectedChatType, sel.selectedChatData, m.sender, m.recipient with
  | some .contact, some d, some s, some r => decide (d._id = s._id) || decide (d._id = r._id)
  | _, _, _, _ => false

/-- The scope test of the spec for a channel event: the Selection is of kind
channel and its target id equals the message's `channelId`. -/
def specChannelScope (sel : Selection) (m : Message) : Bool :=
  match sel.selectedChatType, sel.selectedChatData with
  | some .channel, some d => decide (d._id = m.channelId)
  | _, _ => false

/-- The scope test without the comparison of kinds, for a direct-message event:
something is selected, and the selected target's id equals the sender's id, or
the recipient's id when the sender's differs. -/
def anyKindDirectScope (sel : Selection) (m : Message) : Bool :=
  match sel.selectedChatType, sel.selectedChatData, m.sender, m.recipient with
  | some _, some d, some s, some r => decide (d._id = s._id) || decide (d._id = r._id)
  | some _, some d, some s, none => decide (d._id = s._id)
  | _, _, _, _ => false

/-- The scope test without the comparison of kinds, for a channel event. -/
def anyKindChannelScope (sel : Selection) (m : Message) : Bool :=
  match sel.selectedChatType, sel.selectedChatData with
  | some _, some d => decide (d._id = m.channelId)
  | _, _ => false

/-- The message of a timeline item, when it is an event that passes the given
scope tests against the given selection. -/
def inScope (direct channel : Selection → Message → Bool) (sel : Selection) :
    TimelineItem → Option Message
  | .select _ => none
  | .recieveMessage m => if direct sel m then some m else none
  | .recieveChannelMessage m => if channel sel m then some m else none

/-- The events of a timeline that pass the scope tests against the selection
held at their own position, in arrival order. -/
def inScopeEvents (direct channel : Selection → Message → Bool) (sel0 : Selection)
    (tl : List TimelineItem) : List Message :=
  (List.range tl.length).filterMap fun i =>
    match tl.get? i with
    | some it => inScope direct channel (selectionAt sel0 tl i) it
    | none => none

/-! ## Connection lifecycle -/

/-- The authenticated user held in the store as `userInfo`. -/
structure UserInfo where
  id : String
  deriving DecidableEq, Repr

/-- The callbacks registered on a socket by the effect. -/
inductive Listener where
  | logConnected
  | handleRecieveMessage
  | handleRecieveChannelMessage
  deriving DecidableEq, Repr

/-- Invocation of a registered callback with a delivered message. -/
def Listener.invoke : Listener → Selection → Message → Outcome
  | .logConnected, _, _ => ⟨[], none⟩
  | .handleRecieveMessage, st, m => ChatterSplash.handleRecieveMessage st m
  | .handleRecieveChannelMessage, st, m => ChatterSplash.handleRecieveChannelMessage st m

/-- A handle returned by `io(HOST, options)`: the options it was opened with,
the listeners registered with `on`, and whether it has been opened and not yet
disconnected. -/
structure Socket where
  userId : String
  withCredentials : Bool
  listeners : List (String × Listener)
  connected : Bool
  deriving DecidableEq, Repr

/-- A call made on the transport library. -/
inductive TransportCall where
  | io (handle : Nat) (userId : String)
  | on (handle : Nat) (event : String)
  | off (handle : Nat) (event : String)
  | disconnect (handle : Nat)
  deriving DecidableEq, Repr

/-- The component `SocketProvider` and the handles it has opened.  `userInfo`
is the dependency of the effect at its last run, `socketCurrent` is
`socket.current`, `cleanup` tells whether the last run of the effect returned
a cleanup function, `sockets` lists every handle ever returned by `io` (a
handle is its position), `log` the transport calls in order. -/
structure Provider where
  mounted : Bool
  userInfo : Option UserInfo
  socketCurrent : Option Nat
  cleanup : Bool
  sockets : List Socket
  log : List TransportCall
  deriving DecidableEq, Repr

/-- The call `h.on(event, listener)`. -/
def registerOn : List Socket → Nat → String → Listener → List Socket
  | [], _, _, _ => []
  | s :: rest, 0, ev, l => { s with listeners := s.listeners ++ [(ev, l)] } :: rest
  | s :: rest, h + 1, ev, l => s :: registerOn rest h ev l

/-- The call `h.disconnect()`: the handle is closed, its listeners stay. -/
def closeHandle : List Socket → Nat → List Socket
  | [], _ => []
  | s :: rest, 0 => { s with connected := false } :: rest
  | s :: rest, h + 1 => s :: closeHandle rest h

/-- `socket.current = io(HOST, { withCredentials: true, query: { userId } })`. -/
def Provider.io (p : Provider) (userId : String) : Provider :=
  { p with
    socketCurrent := some p.sockets.length
    sockets := p.sockets ++ [⟨userId, true, [], true⟩]
    log := p.log ++ [.io p.sockets.length userId] }

/-- `socket.current.on(event, listener)`. -/
def Provider.on (p : Provider) (event : String) (l : Listener) : Except JsError Provider :=
  match p.socketCurrent with
  | none => .error .typeError
  | some h => .ok { p with sockets := registerOn p.sockets h event l, log := p.log ++ [.on h event] }

/-- The cleanup function returned by the effect: `socket.current.disconnect()`. -/
def Provider.runCleanup (p : Provider) : Except JsError Provider :=
  match p.socketCurrent with
  | none => .error .typeError
  | some h => .ok { p with sockets := closeHandle p.sockets h, log := p.log ++ [.disconnect h] }

/-- The body of the effect, run with the current `userInfo`. -/
def Provider.effect (p : Provider) (userInfo : Option UserInfo) : Except JsError Provider :=
  match userInfo with
  | none => .ok { p with userInfo := none, cleanup := false }
  | some u => do
    let p1 := Provider.io { p with userInfo := some u } u.id
    let p2 ← p1.on "connect" .logConnected
    let p3 ← p2.on "recieveMessage" .handleRecieveMessage
    let p4 ← p3.on "recieve-channel-message" .handleRecieveChannelMessage
    pure { p4 with cleanup := true }

/-- What happens to the mounted component. -/
inductive LifecycleEvent where
  | setUserInfo (userInfo : Option UserInfo)
  | rerender
  | unmount
  deriving DecidableEq, Repr

/-- The component before its first effect has run. -/
def Provider.fresh : Provider :=
  ⟨true, none, none, false, [], []⟩

/-- Mounting: the effect runs once with the `userInfo` of the first render. -/
def Provider.mount (userInfo : Option UserInfo) : Except JsError Provider :=
  Provider.fresh.effect userInfo

/-- The effect hook with dependency list `[userInfo]`: when the dependency
changes, the cleanup of the previous run (if it returned one) runs first and
then the effect body; a render with the same dependency runs nothing; on
unmount the cleanup runs. -/
def Provider.step (p : Provider) : LifecycleEvent → Except JsError Provider
  | .rerender => .ok p
  | .setUserInfo u =>
    if p.mounted then
      if p.cleanup then
        match p.runCleanup with
        | .error e => .error e
        | .ok q => q.effect u
      else p.effect u
    else .ok p
  | .unmount =>
    if p.mounted then
      if p.cleanup then
        match p.runCleanup with
        | .error e => .error e
        | .ok q => .ok { q with mounted := false, cleanup := false }
      else .ok { p with mounted := false }
    else .ok p

/-- A sequence of lifecycle events, in order. -/
def Provider.run : Provider → List LifecycleEvent → Except JsError Provider
  | p, [] => .ok p
  | p, e :: es =>
    match p.step e with
    | .error x => .error x
    | .ok q => q.run es

/-- The lifecycle of a component mounted with `userInfo` and then driven by
the given events. -/
def Provider.lifecycle (userInfo : Option UserInfo) (es : List LifecycleEvent) :
    Except JsError Provider :=
  match Provider.mount userInfo with
  | .error x => .error x
  | .ok p => p.run es

/-- The number of channels opened and not yet disconnected. -/
def Provider.liveChannels (p : Provider) : Nat :=
  (p.sockets.filter fun s => s.connected).length

/-- The identity the component currently serves: its `userInfo` while mounted,
none once torn down. -/
def Provider.identity (p : Provider) : Option UserInfo :=
  if p.mounted then p.userInfo else none

/-- The outcomes of the listeners a handle runs when the event `event` is
dispatched to it with `message`. -/
def Socket.dispatch (s : Socket) (event : String) (st : Selection) (message : Message) :
    List Outcome :=
  (s.listeners.filter fun l => l.1 = event).map fun l => l.2.invoke st message

/-- The identity transitions read off the lifecycle events alone, on the pair
(still mounted, identity to serve): while mounted, `setUserInfo` replaces the
identity and a teardown ends it; a render with unchanged `userInfo`, and
anything after the teardown, changes nothing. -/
def identityAfter : Bool × Option UserInfo → LifecycleEvent → Bool × Option UserInfo
  | (true, _), .setUserInfo u => (true, u)
  | (true, _), .unmount => (false, none)
  | s, _ => s

/-- The identity present after mounting with `u0` and the events `es`: the
last `userInfo` set, and none once the component is torn down. -/
def servedIdentity (u0 : Option UserInfo) (es : List LifecycleEvent) : Option UserInfo :=
  (es.foldl identityAfter (true, u0)).2

/-- The `userId` query parameters of the channels opened and not yet
disconnected. -/
def Provider.liveUserIds (p : Provider) : List String :=
  (p.sockets.filter fun s => s.connected).map Socket.userId

/-- The listeners the effect registers on the handle it opens, in order. -/
def effectListeners : List (String × Listener) :=
  [("connect", .logConnected), ("recieveMessage", .handleRecieveMessage),
   ("recieve-channel-message", .handleRecieveChannelMessage)]

/-- The transport calls of one run of the effect body for the user `userId`,
opening the handle `h`. -/
def effectCalls (h : Nat) (userId : String) : List TransportCall :=
  [.io h userId, .on h "connect", .on h "recieveMessage", .on h "recieve-channel-message"]

/-- The invariant of the lifecycle: either the component is mounted with an
identity, the last handle opened is live, carries that identity and is the one
held in `socket.current`, and all earlier handles are closed; or there is no
pending cleanup, every handle is closed, and a mounted component has no
identity. -/
def Provider.Consistent (p : Provider) : Prop :=
  (p.mounted = true ∧ p.cleanup = true ∧
    ∃ closed u, p.sockets = closed ++ [⟨u.id, true, effectListeners, true⟩] ∧
      (∀ c ∈ closed, c.connected = false) ∧
      p.socketCurrent = some closed.length ∧ p.userInfo = some u) ∨
  (p.cleanup = false ∧ (∀ c ∈ p.sockets, c.connected = false) ∧
    (p.mounted = true → p.userInfo = none))

/-! ## Event router: helper lemmas -/

theorem dmCondition_eq (st : Selection) (m : Message) :
    dmCondition st m =
      match st.selectedChatType, st.selectedChatData, m.sender, m.recipient with
      | none, _, _, _ => .ok false
      | some _, none, _, _ => .error .typeError
      | some _, some _, none, _ => .error .typeError
      | some _, some d, some s, none =>
        if d._id = s._id then .ok true else .error .typeError
      | some _, some d, some s, some r =>
        .ok (decide (d._id = s._id) || decide (d._id = r._id)) := by
  obtain ⟨t, d⟩ := st
  obtain ⟨s, r, c, x⟩ := m
  cases t <;> cases d <;> cases s <;> cases r <;> simp [dmCondition, readId]
  split <;> simp_all

theorem channelCondition_eq (st : Selection) (m : Message) :
    channelCondition st m =
      match st.selectedChatType, st.selectedChatData with
      | none, _ => .ok false
      | some _, none => .error .typeError
      | some _, some d => .ok (decide (d._id = m.channelId)) := by
  obtain ⟨t, d⟩ := st
  cases t <;> cases d <;> simp [channelCondition, readId]

/-! ## Event router: claims -/

/-- C1, as stated, fails: with a channel selected whose id equals the sender's
id, `handleRecieveMessage` calls `addMessage` on a well-formed direct message
although the Selection is not of kind direct-message. -/
theorem handleRecieveMessage_ignores_kind :
    wellFormedDM ⟨some ⟨some "c1"⟩, some ⟨some "u1"⟩, none, "hi"⟩ = true ∧
    StoreCall.addMessage ⟨some ⟨some "c1"⟩, some ⟨some "u1"⟩, none, "hi"⟩ ∈
      (handleRecieveMessage ⟨some .channel, some ⟨some "c1"⟩⟩
        ⟨some ⟨some "c1"⟩, some ⟨some "u1"⟩, none, "hi"⟩).calls ∧
    (⟨some .channel, some ⟨some "c1"⟩⟩ : Selection).selectedChatType ≠ some .contact := by
  decide

/-- C1, amended: for every store state and every well-formed direct-message
event, `handleRecieveMessage` calls `addMessage` with the message if and only
if something is selected (`selectedChatType` is not `undefined`, whatever the
kind), and the selected target's id equals the sender's id or the recipient's. -/
theorem handleRecieveMessage_addMessage_iff (st : Selection) (m : Message)
    (hwf : wellFormedDM m = true) :
    StoreCall.addMessage m ∈ (handleRecieveMessage st m).calls ↔
      st.selectedChatType ≠ none ∧
        ∃ d s r, st.selectedChatData = some d ∧ m.sender = some s ∧ m.recipient = some r ∧
          (d._id = s._id ∨ d._id = r._id) := by
  obtain ⟨t, d⟩ := st
  obtain ⟨s, r, c, x⟩ := m
  cases s <;> cases r <;> simp [wellFormedDM] at hwf
  cases t <;> cases d <;> simp [handleRecieveMessage, dmCondition_eq]
  split <;> simp_all

theorem handleRecieveMessage_addMessage_iff_witness :
    StoreCall.addMessage ⟨some ⟨some "u2"⟩, some ⟨some "u1"⟩, none, "hey"⟩ ∈
        (handleRecieveMessage ⟨some .contact, some ⟨some "u2"⟩⟩
          ⟨some ⟨some "u2"⟩, some ⟨some "u1"⟩, none, "hey"⟩).calls ↔
      (⟨some .contact, some ⟨some "u2"⟩⟩ : Selection).selectedChatType ≠ none ∧
        ∃ d s r, (⟨some .contact, some ⟨some "u2"⟩⟩ : Selection).selectedChatData = some d ∧
          (⟨some ⟨some "u2"⟩, some ⟨some "u1"⟩, none, "hey"⟩ : Message).sender = some s ∧
          (⟨some ⟨some "u2"⟩, some ⟨some "u1"⟩, none, "hey"⟩ : Message).recipient = some r ∧
          (d._id = s._id ∨ d._id = r._id) :=
  handleRecieveMessage_addMessage_iff _ _ (by decide)

/-- C2, as stated, fails: with a contact selected whose id equals the
message's `channelId`, `handleRecieveChannelMessage` calls `addMessage` on a
well-formed channel message although the Selection is not of kind channel. -/
theorem handleRecieveChannelMessage_ignores_kind :
    wellFormedChannel ⟨some ⟨some "u3"⟩, none, some "x", "hi"⟩ = true ∧
    StoreCall.addMessage ⟨some ⟨some "u3"⟩, none, some "x", "hi"⟩ ∈
      (handleRecieveChannelMessage ⟨some .contact, some ⟨some "x"⟩⟩
        ⟨some ⟨some "u3"⟩, none, some "x", "hi"⟩).calls ∧
    (⟨some .contact, some ⟨some "x"⟩⟩ : Selection).selectedChatType ≠ some .channel := by
  decide

/-- C2, amended: for every store state and every well-formed channel event,
`handleRecieveChannelMessage` calls `addMessage` with the message if and only
if something is selected (`selectedChatType` is not `undefined`, whatever the
kind) and the selected target's id equals the message's `channelId`. -/
theorem handleRecieveChannelMessage_addMessage_iff (st : Selection) (m : Message)
    (hwf : wellFormedChannel m = true) :
    StoreCall.addMessage m ∈ (handleRecieveChannelMessage st m).calls ↔
      st.selectedChatType ≠ none ∧
        ∃ d c, st.selectedChatData = some d ∧ m.channelId = some c ∧ d._id = some c := by
  obtain ⟨t, d⟩ := st
  obtain ⟨s, r, c, x⟩ := m
  cases c <;> simp [wellFormedChannel] at hwf
  cases t <;> cases d <;> simp [handleRecieveChannelMessage, channelCondition_eq]
  split <;> simp_all

theorem handleRecieveChannelMessage_addMessage_iff_witness :
    StoreCall.addMessage ⟨some ⟨some "u3"⟩, none, some "ch1", "hi"⟩ ∈
        (handleRecieveChannelMessage ⟨some .channel, some ⟨some "ch1"⟩⟩
          ⟨some ⟨some "u3"⟩, none, some "ch1", "hi"⟩).calls ↔
      (⟨some .channel, some ⟨some "ch1"⟩⟩ : Selection).selectedChatType ≠ none ∧
        ∃ d c, (⟨some .channel, some ⟨some "ch1"⟩⟩ : Selection).selectedChatData = some d ∧
          (⟨some ⟨some "u3"⟩, none, some "ch1", "hi"⟩ : Message).channelId = some c ∧
          d._id = some c :=
  handleRecieveChannelMessage_addMessage_iff _ _ (by decide)

theorem roster_update_of_well_formed (st : Selection) (dm cm : Message)
    (hsel : st.selectedChatType.isSome = true → st.selectedChatData.isSome = true)
    (hwf : wellFormedDM dm = true) :
    ((handleRecieveMessage st dm).error = none ∧
      (handleRecieveMessage st dm).calls.filter StoreCall.isRoster
        = [.addContactsInDMContacts dm]) ∧
    ((handleRecieveChannelMessage st cm).error = none ∧
      (handleRecieveChannelMessage st cm).calls.filter StoreCall.isRoster
        = [.addChannelInChannelList cm]) := by
  obtain ⟨t, d⟩ := st
  obtain ⟨s, r, c, x⟩ := dm
  cases s <;> cases r <;> simp [wellFormedDM] at hwf
  cases t <;> cases d <;> simp at hsel <;>
    simp [handleRecieveMessage, handleRecieveChannelMessage, dmCondition_eq,
      channelCondition_eq, StoreCall.isRoster]
  constructor <;> split <;> simp_all [StoreCall.isRoster]

/-- C3, as stated, fails: with a conversation selected, a direct-message event
without sender makes `handleRecieveMessage` throw before its roster update; and
in a store state whose `selectedChatType` is set while `selectedChatData` is
`undefined`, both listeners throw on well-formed events, again with no Roster
Store update at all. -/
theorem roster_update_skipped_on_throw :
    handleRecieveMessage ⟨some .contact, some ⟨some "u2"⟩⟩
        ⟨none, some ⟨some "u1"⟩, none, "hi"⟩
      = ⟨[], some .typeError⟩ ∧
    (wellFormedDM ⟨some ⟨some "u3"⟩, some ⟨some "u1"⟩, none, "hi"⟩ = true ∧
      handleRecieveMessage ⟨some .contact, none⟩
          ⟨some ⟨some "u3"⟩, some ⟨some "u1"⟩, none, "hi"⟩
        = ⟨[], some .typeError⟩) ∧
    (wellFormedChannel ⟨some ⟨some "u3"⟩, none, some "ch1", "yo"⟩ = true ∧
      handleRecieveChannelMessage ⟨some .channel, none⟩
          ⟨some ⟨some "u3"⟩, none, some "ch1", "yo"⟩
        = ⟨[], some .typeError⟩) := by
  decide

/-- C3, amended: for every inbound event (direct-message or channel) and every
store state, the listener either throws a `TypeError` before calling any store
action, or completes and calls the Roster Store update of its kind exactly
once, with that event's message, whether or not the scope test matched.  It
throws exactly when something is selected and the selected data is
`undefined`, or, for a direct message, the sender is missing, or the sender's
id differs from the selected id and the recipient is missing.  So whenever the
selected data is present with the selected kind, every direct message carrying
sender and recipient and every channel message reaches the roster update
exactly once. -/
theorem roster_update_once_unless_thrown (st : Selection) (dm cm : Message) :
    (((handleRecieveMessage st dm).error = some .typeError ∧
        (handleRecieveMessage st dm).calls = []) ∨
      ((handleRecieveMessage st dm).error = none ∧
        (handleRecieveMessage st dm).calls.filter StoreCall.isRoster
          = [.addContactsInDMContacts dm])) ∧
    ((handleRecieveMessage st dm).error = some .typeError ↔
      st.selectedChatType ≠ none ∧
        (st.selectedChatData = none ∨ dm.sender = none ∨
          ∃ d s, st.selectedChatData = some d ∧ dm.sender = some s ∧ d._id ≠ s._id ∧
            dm.recipient = none)) ∧
    (((handleRecieveChannelMessage st cm).error = some .typeError ∧
        (handleRecieveChannelMessage st cm).calls = []) ∨
      ((handleRecieveChannelMessage st cm).error = none ∧
        (handleRecieveChannelMessage st cm).calls.filter StoreCall.isRoster
          = [.addChannelInChannelList cm])) ∧
    ((handleRecieveChannelMessage st cm).error = some .typeError ↔
      st.selectedChatType ≠ none ∧ st.selectedChatData = none) ∧
    ((st.selectedChatType.isSome = true → st.selectedChatData.isSome = true) →
      wellFormedDM dm = true →
      (handleRecieveMessage st dm).error = none ∧
        (handleRecieveMessage st dm).calls.filter StoreCall.isRoster
          = [.addContactsInDMContacts dm]) ∧
    ((st.selectedChatType.isSome = true → st.selectedChatData.isSome = true) →
      (handleRecieveChannelMessage st cm).error = none ∧
        (handleRecieveChannelMessage st cm).calls.filter StoreCall.isRoster
          = [.addChannelInChannelList cm]) := by
  refine ⟨?_, ?_, ?_, ?_, fun hsel hwf => (roster_update_of_well_formed st dm cm hsel hwf).1, ?_⟩
  · obtain ⟨t, d⟩ := st
    obtain ⟨s, r, c, x⟩ := dm
    cases t <;> cases d <;> cases s <;> cases r <;>
      simp [handleRecieveMessage, dmCondition_eq, StoreCall.isRoster]
    · rename_i k d s
      by_cases h : d._id = s._id <;> simp [h, StoreCall.isRoster]
    · rename_i k d s r
      by_cases h : d._id = s._id <;> by_cases h2 : d._id = r._id <;>
        simp [h, h2, StoreCall.isRoster]
  · obtain ⟨t, d⟩ := st
    obtain ⟨s, r, c, x⟩ := dm
    cases t <;> cases d <;> cases s <;> cases r <;>
      simp [handleRecieveMessage, dmCondition_eq]
    · rename_i k d s
      by_cases h : d._id = s._id <;> simp [h]
    · rename_i k d s r
      by_cases h : d._id = s._id <;> by_cases h2 : d._id = r._id <;> simp [h, h2]
  · obtain ⟨t, d⟩ := st
    cases t <;> cases d <;>
      simp [handleRecieveChannelMessage, channelCondition_eq, StoreCall.isRoster]
    rename_i k d
    by_cases h : d._id = cm.channelId <;> simp [h, StoreCall.isRoster]
  · obtain ⟨t, d⟩ := st
    cases t <;> cases d <;> simp [handleRecieveChannelMessage, channelCondition_eq]
    rename_i k d
    by_cases h : d._id = cm.channelId <;> simp [h]
  · intro hsel
    obtain ⟨t, d⟩ := st
    cases t <;> cases d <;> simp at hsel <;>
      simp [handleRecieveChannelMessage, channelCondition_eq, StoreCall.isRoster]
    rename_i k d
    by_cases h : d._id = cm.channelId <;> simp [h, StoreCall.isRoster]

theorem roster_update_once_unless_thrown_witness :
    ((handleRecieveMessage ⟨some .contact, some ⟨some "u2"⟩⟩
        ⟨some ⟨some "u3"⟩, some ⟨some "u1"⟩, none, "hi"⟩).error = none ∧
      (handleRecieveMessage ⟨some .contact, some ⟨some "u2"⟩⟩
        ⟨some ⟨some "u3"⟩, some ⟨some "u1"⟩, none, "hi"⟩).calls.filter StoreCall.isRoster
        = [.addContactsInDMContacts ⟨some ⟨some "u3"⟩, some ⟨some "u1"⟩, none, "hi"⟩]) ∧
    ((handleRecieveChannelMessage ⟨some .contact, some ⟨some "u2"⟩⟩
        ⟨some ⟨some "u3"⟩, none, some "ch1", "yo"⟩).error = none ∧
      (handleRecieveChannelMessage ⟨some .contact, some ⟨some "u2"⟩⟩
        ⟨some ⟨some "u3"⟩, none, some "ch1", "yo"⟩).calls.filter StoreCall.isRoster
        = [.addChannelInChannelList ⟨some ⟨some "u3"⟩, none, some "ch1", "yo"⟩]) :=
  have h := roster_update_once_unless_thrown ⟨some .contact, some ⟨some "u2"⟩⟩
    ⟨some ⟨some "u3"⟩, some ⟨some "u1"⟩, none, "hi"⟩ ⟨some ⟨some "u3"⟩, none, some "ch1", "yo"⟩
  ⟨h.2.2.2.2.1 (by decide) (by decide), h.2.2.2.2.2 (by decide)⟩

/-- C5, as stated, fails: with a contact selected, a direct-message event
without sender makes `handleRecieveMessage` throw; one without recipient whose
sender is the selected contact is appended to the Conversation Store; and with
nothing selected a channel event without `channelId` still reaches the Roster
Store update. -/
theorem malformed_event_not_dropped :
    (wellFormedDM ⟨none, some ⟨some "u1"⟩, none, "hi"⟩ = false ∧
      (handleRecieveMessage ⟨some .contact, some ⟨some "u2"⟩⟩
        ⟨none, some ⟨some "u1"⟩, none, "hi"⟩).error = some .typeError) ∧
    (wellFormedDM ⟨some ⟨some "u2"⟩, none, none, "hi"⟩ = false ∧
      handleRecieveMessage ⟨some .contact, some ⟨some "u2"⟩⟩
        ⟨some ⟨some "u2"⟩, none, none, "hi"⟩
        = ⟨[.addMessage ⟨some ⟨some "u2"⟩, none, none, "hi"⟩,
            .addContactsInDMContacts ⟨some ⟨some "u2"⟩, none, none, "hi"⟩], none⟩) ∧
    (wellFormedChannel ⟨some ⟨some "u3"⟩, none, none, "hi"⟩ = false ∧
      handleRecieveChannelMessage ⟨none, none⟩ ⟨some ⟨some "u3"⟩, none, none, "hi"⟩
        = ⟨[.addChannelInChannelList ⟨some ⟨some "u3"⟩, none, none, "hi"⟩], none⟩) := by
  decide

/-- C5, amended: for every store state and every malformed inbound event, the
listener either throws a `TypeError` before calling any store action, or
completes and calls the Roster Store update exactly once with that event: the
event is never dropped silently.  A direct-message event throws exactly when
something is selected and the selected data is `undefined`, or the sender is
missing, or the sender's id differs from the selected id; a channel event
throws exactly when something is selected and the selected data is
`undefined`. -/
theorem malformed_event_throws_or_updates_roster (st : Selection) (dm cm : Message)
    (hdm : wellFormedDM dm = false) (hcm : wellFormedChannel cm = false) :
    (((handleRecieveMessage st dm).error = some .typeError ∧
        (handleRecieveMessage st dm).calls = []) ∨
      ((handleRecieveMessage st dm).error = none ∧
        (handleRecieveMessage st dm).calls.filter StoreCall.isRoster
          = [.addContactsInDMContacts dm])) ∧
    ((handleRecieveMessage st dm).error = some .typeError ↔
      st.selectedChatType ≠ none ∧
        (st.selectedChatData = none ∨ dm.sender = none ∨
          ∃ d s, st.selectedChatData = some d ∧ dm.sender = some s ∧ d._id ≠ s._id)) ∧
    (((handleRecieveChannelMessage st cm).error = some .typeError ∧
        (handleRecieveChannelMessage st cm).calls = []) ∨
      ((handleRecieveChannelMessage st cm).error = none ∧
        (handleRecieveChannelMessage st cm).calls.filter StoreCall.isRoster
          = [.addChannelInChannelList cm])) ∧
    ((handleRecieveChannelMessage st cm).error = some .typeError ↔
      st.selectedChatType ≠ none ∧ st.selectedChatData = none) ∧
    (StoreCall.addMessage dm ∈ (handleRecieveMessage st dm).calls ↔
      st.selectedChatType ≠ none ∧
        ∃ d s, st.selectedChatData = some d ∧ dm.sender = some s ∧ d._id = s._id) ∧
    (StoreCall.addMessage cm ∈ (handleRecieveChannelMessage st cm).calls ↔
      st.selectedChatType ≠ none ∧ ∃ d, st.selectedChatData = some d ∧ d._id = none) := by
  obtain ⟨t, d⟩ := st
  obtain ⟨s, r, c, x⟩ := dm
  obtain ⟨s2, r2, c2, x2⟩ := cm
  refine ⟨?_, ?_, ?_, ?_, ?_, ?_⟩
  rotate_left 4
  · cases t <;> cases d <;> cases s <;> cases r <;>
      simp_all [wellFormedDM, handleRecieveMessage, dmCondition_eq]
    rename_i k d s
    by_cases h : d._id = s._id <;> simp [h]
  · cases c2 <;> simp [wellFormedChannel] at hcm
    cases t <;> cases d <;> simp [handleRecieveChannelMessage, channelCondition_eq]
    rename_i k d
    by_cases h : d._id = none <;> simp [h]
  · cases t <;> cases d <;> cases s <;> cases r <;>
      simp_all [wellFormedDM, handleRecieveMessage, dmCondition_eq, StoreCall.isRoster]
    split <;> simp_all [StoreCall.isRoster]
  · cases t <;> cases d <;> cases s <;> cases r <;>
      simp_all [wellFormedDM, handleRecieveMessage, dmCondition_eq]
    rename_i k d s
    by_cases h : d._id = s._id <;> simp [h]
  · cases t <;> cases d <;>
      simp [handleRecieveChannelMessage, channelCondition_eq, StoreCall.isRoster]
    split <;> simp_all [StoreCall.isRoster]
  · cases t <;> cases d <;> simp [handleRecieveChannelMessage, channelCondition_eq]
    split <;> simp_all

theorem malformed_event_throws_or_updates_roster_witness :
    ((handleRecieveMessage ⟨some .contact, some ⟨some "u2"⟩⟩
          ⟨none, some ⟨some "u1"⟩, none, "hi"⟩).error = some .typeError ∧
        (handleRecieveMessage ⟨some .contact, some ⟨some "u2"⟩⟩
          ⟨none, some ⟨some "u1"⟩, none, "hi"⟩).calls = []) ∨
      ((handleRecieveMessage ⟨some .contact, some ⟨some "u2"⟩⟩
          ⟨none, some ⟨some "u1"⟩, none, "hi"⟩).error = none ∧
        (handleRecieveMessage ⟨some .contact, some ⟨some "u2"⟩⟩
          ⟨none, some ⟨some "u1"⟩, none, "hi"⟩).calls.filter StoreCall.isRoster
          = [.addContactsInDMContacts ⟨none, some ⟨some "u1"⟩, none, "hi"⟩]) :=
  (malformed_event_throws_or_updates_roster ⟨some .contact, some ⟨some "u2"⟩⟩
    ⟨none, some ⟨some "u1"⟩, none, "hi"⟩ ⟨some ⟨some "u3"⟩, none, none, "yo"⟩
    (by decide) (by decide)).1

/-- C9: for every direct-message event whose sender is the local identity, if
the Selection is the direct-message conversation with the message's recipient
(the selected target's id equals the recipient's id), `handleRecieveMessage`
completes, calling `addMessage` with the message and then the roster update. -/
theorem self_sent_message_appended (st : Selection) (m : Message) (localId : String)
    (d s r : Doc)
    (hkind : st.selectedChatType = some .contact) (hdata : st.selectedChatData = some d)
    (hsender : m.sender = some s) (_hself : s._id = some localId)
    (hrecipient : m.recipient = some r) (htarget : d._id = r._id) :
    handleRecieveMessage st m = ⟨[.addMessage m, .addContactsInDMContacts m], none⟩ ∧
    StoreCall.addMessage m ∈ (handleRecieveMessage st m).calls := by
  have h : handleRecieveMessage st m = ⟨[.addMessage m, .addContactsInDMContacts m], none⟩ := by
    simp [handleRecieveMessage, dmCondition_eq, hkind, hdata, hsender, hrecipient, htarget]
  exact ⟨h, by simp [h]⟩

theorem self_sent_message_appended_witness :
    handleRecieveMessage ⟨some .contact, some ⟨some "u2"⟩⟩
        ⟨some ⟨some "u1"⟩, some ⟨some "u2"⟩, none, "hello"⟩
      = ⟨[.addMessage ⟨some ⟨some "u1"⟩, some ⟨some "u2"⟩, none, "hello"⟩,
          .addContactsInDMContacts ⟨some ⟨some "u1"⟩, some ⟨some "u2"⟩, none, "hello"⟩], none⟩ ∧
    StoreCall.addMessage ⟨some ⟨some "u1"⟩, some ⟨some "u2"⟩, none, "hello"⟩ ∈
      (handleRecieveMessage ⟨some .contact, some ⟨some "u2"⟩⟩
        ⟨some ⟨some "u1"⟩, some ⟨some "u2"⟩, none, "hello"⟩).calls :=
  self_sent_message_appended ⟨some .contact, some ⟨some "u2"⟩⟩
    ⟨some ⟨some "u1"⟩, some ⟨some "u2"⟩, none, "hello"⟩ "u1" ⟨some "u2"⟩ ⟨some "u1"⟩
    ⟨some "u2"⟩ rfl rfl rfl rfl rfl rfl

/-- C10: when nothing is selected (`selectedChatType` is `undefined`), for
every inbound direct-message or channel event the listener completes with the
roster update of that message as its only store call, `addMessage` is not
called, and the Conversation Store is left unchanged while the Roster Store
receives the update. -/
theorem nothing_selected_only_roster (s : Store) (m : Message)
    (hnone : s.selection.selectedChatType = none) :
    handleRecieveMessage s.selection m = ⟨[.addContactsInDMContacts m], none⟩ ∧
    handleRecieveChannelMessage s.selection m = ⟨[.addChannelInChannelList m], none⟩ ∧
    (∀ m', StoreCall.addMessage m' ∉ (handleRecieveMessage s.selection m).calls ∧
      StoreCall.addMessage m' ∉ (handleRecieveChannelMessage s.selection m).calls) ∧
    s.process (.recieveMessage m)
      = { s with rosterUpdates := s.rosterUpdates ++ [.addContactsInDMContacts m] } ∧
    s.process (.recieveChannelMessage m)
      = { s with rosterUpdates := s.rosterUpdates ++ [.addChannelInChannelList m] } := by
  have h1 : handleRecieveMessage s.selection m = ⟨[.addContactsInDMContacts m], none⟩ := by
    simp [handleRecieveMessage, dmCondition, hnone]
  have h2 : handleRecieveChannelMessage s.selection m
      = ⟨[.addChannelInChannelList m], none⟩ := by
    simp [handleRecieveChannelMessage, channelCondition, hnone]
  refine ⟨h1, h2, ?_, ?_, ?_⟩
  · intro m'
    simp [h1, h2]
  · simp [Store.process, h1, Store.apply]
  · simp [Store.process, h2, Store.apply]

theorem nothing_selected_only_roster_witness :
    handleRecieveMessage (⟨⟨none, none⟩, [], []⟩ : Store).selection
        ⟨some ⟨some "u3"⟩, some ⟨some "u1"⟩, none, "hi"⟩
      = ⟨[.addContactsInDMContacts ⟨some ⟨some "u3"⟩, some ⟨some "u1"⟩, none, "hi"⟩], none⟩ :=
  (nothing_selected_only_roster ⟨⟨none, none⟩, [], []⟩
    ⟨some ⟨some "u3"⟩, some ⟨some "u1"⟩, none, "hi"⟩ rfl).1

/-! ## Timelines -/

theorem foldl_apply_messages (calls : List StoreCall) (s : Store) :
    (calls.foldl Store.apply s).selectedChatMessages
        = s.selectedChatMessages ++ appendedBy calls ∧
      (calls.foldl Store.apply s).selection = s.selection := by
  induction calls generalizing s with
  | nil => simp [appendedBy]
  | cons c rest ih =>
    cases c <;> simp [List.foldl, ih, Store.apply, appendedBy]

theorem appendedBy_handleRecieveMessage (sel : Selection) (m : Message) :
    appendedBy (handleRecieveMessage sel m).calls
      = if anyKindDirectScope sel m then [m] else [] := by
  obtain ⟨t, d⟩ := sel
  obtain ⟨s, r, c, x⟩ := m
  cases t <;> cases d <;> cases s <;> cases r <;>
    simp [handleRecieveMessage, dmCondition_eq, anyKindDirectScope, appendedBy]
  · rename_i k d s
    by_cases h : d._id = s._id <;> simp [h, appendedBy]
  · rename_i k d s r
    by_cases h : d._id = s._id <;> by_cases h2 : d._id = r._id <;> simp [h, h2, appendedBy]

theorem appendedBy_handleRecieveChannelMessage (sel : Selection) (m : Message) :
    appendedBy (handleRecieveChannelMessage sel m).calls
      = if anyKindChannelScope sel m then [m] else [] := by
  obtain ⟨t, d⟩ := sel
  cases t <;> cases d <;>
    simp [handleRecieveChannelMessage, channelCondition_eq, anyKindChannelScope, appendedBy]
  rename_i k d
  by_cases h : d._id = m.channelId <;> simp [h, appendedBy]

theorem process_messages (s : Store) (it : TimelineItem) :
    (s.process it).selectedChatMessages
        = s.selectedChatMessages
          ++ (inScope anyKindDirectScope anyKindChannelScope s.selection it).toList ∧
      (s.process it).selection = nextSelection s.selection it := by
  cases it with
  | select sel => simp [Store.process, inScope, nextSelection]
  | recieveMessage m =>
    simp only [Store.process, foldl_apply_messages, appendedBy_handleRecieveMessage, inScope,
      nextSelection]
    split <;> simp
  | recieveChannelMessage m =>
    simp only [Store.process, foldl_apply_messages, appendedBy_handleRecieveChannelMessage,
      inScope, nextSelection]
    split <;> simp

theorem inScopeEvents_cons (direct channel : Selection → Message → Bool) (sel0 : Selection)
    (it : TimelineItem) (tl : List TimelineItem) :
    inScopeEvents direct channel sel0 (it :: tl)
      = (inScope direct channel sel0 it).toList
        ++ inScopeEvents direct channel (nextSelection sel0 it) tl := by
  have hsel : ∀ i, selectionAt sel0 (it :: tl) (i + 1) = selectionAt (nextSelection sel0 it) tl i := by
    intro i
    cases it <;> simp [selectionAt, nextSelection]
  simp only [inScopeEvents, List.length_cons, List.range_succ_eq_map, List.filterMap_cons,
    List.filterMap_map]
  have h0 : selectionAt sel0 (it :: tl) 0 = sel0 := by simp [selectionAt]
  simp only [List.get?_cons_zero, h0]
  have hrest : (List.filterMap ((fun i =>
        match (it :: tl).get? i with
        | some it' => inScope direct channel (selectionAt sel0 (it :: tl) i) it'
        | none => none) ∘ Nat.succ) (List.range tl.length))
      = List.filterMap (fun i =>
        match tl.get? i with
        | some it' => inScope direct channel (selectionAt (nextSelection sel0 it) tl i) it'
        | none => none) (List.range tl.length) := by
    apply congrArg (fun f => List.filterMap f (List.range tl.length))
    funext i
    simp [hsel]
  rw [hrest]
  cases inScope direct channel sel0 it <;> simp

/-- C4, as stated, fails: with the contact `x` selected, a channel event whose
`channelId` is `x` is appended to the Conversation Store, although no event of
the timeline matches the selection held at its time in both kind and target. -/
theorem timeline_appends_foreign_kind :
    (Store.runTimeline ⟨⟨none, none⟩, [], []⟩
        [.select ⟨some .contact, some ⟨some "x"⟩⟩,
         .recieveChannelMessage ⟨some ⟨some "u3"⟩, none, some "x", "hi"⟩]).selectedChatMessages
      = [⟨some ⟨some "u3"⟩, none, some "x", "hi"⟩] ∧
    inScopeEvents specDirectScope specChannelScope ⟨none, none⟩
        [.select ⟨some .contact, some ⟨some "x"⟩⟩,
         .recieveChannelMessage ⟨some ⟨some "u3"⟩, none, some "x", "hi"⟩]
      = [] := by
  decide

/-- C4, amended: for every finite timeline that interleaves Selection changes
with inbound events, processed in order with `addMessage` appending at the
end, the messages the two listeners append to the Conversation Store are
exactly the events that passed the scope test without the comparison of kinds
(something selected, and the selected id equal to the sender's or recipient's
id for a direct message, to the `channelId` for a channel message) against the
Selection State held at the moment that event was processed, in arrival
order. -/
theorem timeline_appends_in_scope_events (s : Store) (tl : List TimelineItem) :
    (s.runTimeline tl).selectedChatMessages
      = s.selectedChatMessages
        ++ inScopeEvents anyKindDirectScope anyKindChannelScope s.selection tl := by
  induction tl generalizing s with
  | nil => simp [Store.runTimeline, inScopeEvents]
  | cons it tl ih =>
    have hstep := process_messages s it
    have hrun : s.runTimeline (it :: tl) = (s.process it).runTimeline tl := by
      simp [Store.runTimeline]
    rw [hrun, ih, hstep.1, hstep.2, inScopeEvents_cons, List.append_assoc]

/-! ## Connection lifecycle: helper lemmas -/

theorem registerOn_append_length (xs : List Socket) (s : Socket) (ev : String) (l : Listener) :
    registerOn (xs ++ [s]) xs.length ev l
      = xs ++ [{ s with listeners := s.listeners ++ [(ev, l)] }] := by
  induction xs with
  | nil => simp [registerOn]
  | cons x xs ih => simp [registerOn, ih]

theorem closeHandle_append_length (xs : List Socket) (s : Socket) :
    closeHandle (xs ++ [s]) xs.length = xs ++ [{ s with connected := false }] := by
  induction xs with
  | nil => simp [closeHandle]
  | cons x xs ih => simp [closeHandle, ih]

theorem effect_some (p : Provider) (u : UserInfo) :
    p.effect (some u) = .ok
      { mounted := p.mounted, userInfo := some u, socketCurrent := some p.sockets.length,
        cleanup := true,
        sockets := p.sockets ++ [⟨u.id, true, effectListeners, true⟩],
        log := p.log ++ effectCalls p.sockets.length u.id } := by
  simp [Provider.effect, Provider.io, Provider.on, registerOn_append_length, bind, Except.bind,
    pure, Except.pure, effectListeners, effectCalls]

theorem effect_none (p : Provider) :
    p.effect none = .ok { p with userInfo := none, cleanup := false } := rfl

theorem runCleanup_consistent (p : Provider) (closed : List Socket) (s : Socket)
    (hs : p.sockets = closed ++ [s]) (hc : p.socketCurrent = some closed.length) :
    p.runCleanup = .ok
      { p with sockets := closed ++ [{ s with connected := false }],
               log := p.log ++ [.disconnect closed.length] } := by
  simp [Provider.runCleanup, hc, hs, closeHandle_append_length]

theorem effect_consistent (p : Provider) (u : Option UserInfo)
    (hm : p.mounted = true) (hall : ∀ c ∈ p.sockets, c.connected = false) :
    ∃ q, p.effect u = .ok q ∧ q.Consistent := by
  cases u with
  | none =>
    refine ⟨_, effect_none p, Or.inr ⟨rfl, hall, fun _ => rfl⟩⟩
  | some u =>
    refine ⟨_, effect_some p u, Or.inl ⟨hm, rfl, p.sockets, u, rfl, hall, rfl, rfl⟩⟩

theorem mount_consistent (u : Option UserInfo) :
    ∃ q, Provider.mount u = .ok q ∧ q.Consistent :=
  effect_consistent Provider.fresh u rfl (by simp [Provider.fresh])

theorem step_mounted_cleanup (p : Provider) (hm : p.mounted = true) (hcl : p.cleanup = true) :
    (∀ v, p.step (.setUserInfo v)
        = match p.runCleanup with
          | .error e => .error e
          | .ok q => q.effect v) ∧
      p.step .unmount
        = match p.runCleanup with
          | .error e => .error e
          | .ok q => .ok { q with mounted := false, cleanup := false } := by
  constructor
  · intro v
    simp only [Provider.step]
    rw [if_pos hm, if_pos hcl]
  · simp only [Provider.step]
    rw [if_pos hm, if_pos hcl]

theorem step_mounted_idle (p : Provider) (hm : p.mounted = true) (hcl : p.cleanup = false) :
    (∀ v, p.step (.setUserInfo v) = p.effect v) ∧
      p.step .unmount = .ok { p with mounted := false } := by
  have hne : ¬ p.cleanup = true := by simp [hcl]
  constructor
  · intro v
    simp only [Provider.step]
    rw [if_pos hm, if_neg hne]
  · simp only [Provider.step]
    rw [if_pos hm, if_neg hne]

theorem step_unmounted (p : Provider) (hm : ¬ p.mounted = true) (e : LifecycleEvent) :
    p.step e = .ok p := by
  cases e with
  | rerender => rfl
  | setUserInfo v =>
    simp only [Provider.step]
    rw [if_neg hm]
  | unmount =>
    simp only [Provider.step]
    rw [if_neg hm]

theorem step_consistent (p : Provider) (e : LifecycleEvent) (hp : p.Consistent) :
    ∃ q, p.step e = .ok q ∧ q.Consistent := by
  rcases hp with ⟨hm, hcl, closed, u, hs, hclosed, hcur, hu⟩ | ⟨hcl, hall, hu⟩
  · have hrun := runCleanup_consistent p closed _ hs hcur
    have hall : ∀ c ∈ closed ++ [Socket.mk u.id true effectListeners false],
        c.connected = false := by
      intro c hc
      rcases List.mem_append.mp hc with h | h
      · exact hclosed c h
      · simp at h
        simp [h]
    have hstep := step_mounted_cleanup p hm hcl
    cases e with
    | rerender => exact ⟨p, rfl, Or.inl ⟨hm, hcl, closed, u, hs, hclosed, hcur, hu⟩⟩
    | setUserInfo v =>
      obtain ⟨q, hq, hqc⟩ := effect_consistent
        { p with sockets := closed ++ [⟨u.id, true, effectListeners, false⟩],
                 log := p.log ++ [.disconnect closed.length] } v hm hall
      refine ⟨q, ?_, hqc⟩
      rw [hstep.1 v, hrun]
      exact hq
    | unmount =>
      refine ⟨{ p with mounted := false, cleanup := false,
                       sockets := closed ++ [⟨u.id, true, effectListeners, false⟩],
                       log := p.log ++ [.disconnect closed.length] }, ?_,
        Or.inr ⟨rfl, hall, ?_⟩⟩
      · rw [hstep.2, hrun]
      · intro h
        cases h
  · cases e with
    | rerender => exact ⟨p, rfl, Or.inr ⟨hcl, hall, hu⟩⟩
    | setUserInfo v =>
      by_cases hm : p.mounted = true
      · obtain ⟨q, hq, hqc⟩ := effect_consistent p v hm hall
        exact ⟨q, by rw [(step_mounted_idle p hm hcl).1 v, hq], hqc⟩
      · exact ⟨p, step_unmounted p hm _, Or.inr ⟨hcl, hall, hu⟩⟩
    | unmount =>
      by_cases hm : p.mounted = true
      · refine ⟨{ p with mounted := false }, (step_mounted_idle p hm hcl).2,
          Or.inr ⟨hcl, hall, ?_⟩⟩
        intro h
        cases h
      · exact ⟨p, step_unmounted p hm _, Or.inr ⟨hcl, hall, hu⟩⟩

theorem run_consistent (es : List LifecycleEvent) (p : Provider) (hp : p.Consistent) :
    ∃ q, p.run es = .ok q ∧ q.Consistent := by
  induction es generalizing p with
  | nil => exact ⟨p, rfl, hp⟩
  | cons e es ih =>
    obtain ⟨q, hq, hqc⟩ := step_consistent p e hp
    obtain ⟨r, hr, hrc⟩ := ih q hqc
    exact ⟨r, by simp [Provider.run, hq, hr], hrc⟩

theorem lifecycle_consistent (u : Option UserInfo) (es : List LifecycleEvent) :
    ∃ q, Provider.lifecycle u es = .ok q ∧ q.Consistent := by
  obtain ⟨p, hp, hpc⟩ := mount_consistent u
  obtain ⟨q, hq, hqc⟩ := run_consistent es p hpc
  exact ⟨q, by simp [Provider.lifecycle, hp, hq], hqc⟩

theorem filter_connected_closed (xs : List Socket) (h : ∀ c ∈ xs, c.connected = false) :
    xs.filter (fun s => s.connected) = [] := by
  simp [List.filter_eq_nil_iff]
  intro a ha
  simp [h a ha]

theorem liveChannels_consistent (p : Provider) (hp : p.Consistent) :
    p.liveChannels = if p.identity.isSome then 1 else 0 := by
  rcases hp with ⟨hm, hcl, closed, u, hs, hclosed, hcur, hu⟩ | ⟨hcl, hall, hu⟩
  · simp [Provider.liveChannels, Provider.identity, hm, hu, hs, List.filter_append,
      filter_connected_closed closed hclosed]
  · by_cases hm : p.mounted = true
    · simp [Provider.liveChannels, Provider.identity, hm, hu hm,
        filter_connected_closed p.sockets hall]
    · simp [Provider.liveChannels, Provider.identity, hm,
        filter_connected_closed p.sockets hall]

theorem getElem?_last_two (xs : List Socket) (a b : Socket) :
    (xs ++ [a] ++ [b])[xs.length]? = some a ∧
      (xs ++ [a] ++ [b])[xs.length + 1]? = some b := by
  induction xs with
  | nil => simp
  | cons x xs ih => simpa using ih

/-! ## Connection lifecycle: claims -/

theorem effect_identity (p q : Provider) (u : Option UserInfo) (h : p.effect u = .ok q) :
    q.mounted = p.mounted ∧ q.userInfo = u := by
  cases u with
  | none =>
    rw [effect_none] at h
    cases h
    exact ⟨rfl, rfl⟩
  | some v =>
    rw [effect_some] at h
    cases h
    exact ⟨rfl, rfl⟩

theorem runCleanup_frame (p c : Provider) (h : p.runCleanup = .ok c) :
    c.mounted = p.mounted ∧ c.userInfo = p.userInfo := by
  unfold Provider.runCleanup at h
  cases hc : p.socketCurrent with
  | none => simp [hc] at h
  | some a =>
    simp only [hc] at h
    cases h
    exact ⟨rfl, rfl⟩

theorem step_identity (p q : Provider) (e : LifecycleEvent) (h : p.step e = .ok q) :
    (q.mounted, q.identity) = identityAfter (p.mounted, p.identity) e := by
  by_cases hm : p.mounted = true
  · cases e with
    | rerender =>
      cases h
      simp [identityAfter]
    | setUserInfo v =>
      have hq : q.mounted = true ∧ q.userInfo = v := by
        by_cases hcl : p.cleanup = true
        · rw [(step_mounted_cleanup p hm hcl).1] at h
          cases hc : p.runCleanup with
          | error x => simp [hc] at h
          | ok c =>
            simp only [hc] at h
            have h1 := effect_identity c q v h
            have h2 := runCleanup_frame p c hc
            exact ⟨by rw [h1.1, h2.1, hm], h1.2⟩
        · have hcl2 : p.cleanup = false := by simpa using hcl
          rw [(step_mounted_idle p hm hcl2).1] at h
          have h1 := effect_identity p q v h
          exact ⟨by rw [h1.1, hm], h1.2⟩
      simp [Provider.identity, hq.1, hq.2, hm, identityAfter]
    | unmount =>
      have hq : q.mounted = false := by
        by_cases hcl : p.cleanup = true
        · rw [(step_mounted_cleanup p hm hcl).2] at h
          cases hc : p.runCleanup with
          | error x => simp [hc] at h
          | ok c =>
            simp only [hc] at h
            cases h
            rfl
        · have hcl2 : p.cleanup = false := by simpa using hcl
          rw [(step_mounted_idle p hm hcl2).2] at h
          cases h
          rfl
      simp [Provider.identity, hq, hm, identityAfter]
  · rw [step_unmounted p hm e] at h
    cases h
    have hf : p.mounted = false := by simpa using hm
    cases e <;> simp [Provider.identity, hf, identityAfter]

theorem run_identity (es : List LifecycleEvent) (p q : Provider) (h : p.run es = .ok q) :
    (q.mounted, q.identity) = es.foldl identityAfter (p.mounted, p.identity) := by
  induction es generalizing p with
  | nil =>
    cases h
    rfl
  | cons e es ih =>
    unfold Provider.run at h
    cases hs : p.step e with
    | error x => simp [hs] at h
    | ok r =>
      simp only [hs] at h
      rw [List.foldl_cons, ← step_identity p r e hs]
      exact ih r h

theorem lifecycle_identity (u0 : Option UserInfo) (es : List LifecycleEvent) (q : Provider)
    (h : Provider.lifecycle u0 es = .ok q) : q.identity = servedIdentity u0 es := by
  unfold Provider.lifecycle at h
  cases hmount : Provider.mount u0 with
  | error x => simp [hmount] at h
  | ok p =>
    simp only [hmount] at h
    have h1 := effect_identity Provider.fresh p u0 hmount
    have hp : (p.mounted, p.identity) = (true, u0) := by
      have hpm : p.mounted = true := by rw [h1.1]; rfl
      simp [Provider.identity, hpm, h1.2]
    have h2 := run_identity es p q h
    rw [hp] at h2
    unfold servedIdentity
    rw [← h2]

theorem liveUserIds_consistent (p : Provider) (hp : p.Consistent) :
    p.liveUserIds = (p.identity.map UserInfo.id).toList := by
  rcases hp with ⟨hm, hcl, closed, u, hs, hclosed, hcur, hu⟩ | ⟨hcl, hall, hu⟩
  · simp [Provider.liveUserIds, Provider.identity, hm, hu, hs, List.filter_append,
      filter_connected_closed closed hclosed]
  · by_cases hm : p.mounted = true
    · simp [Provider.liveUserIds, Provider.identity, hm, hu hm,
        filter_connected_closed p.sockets hall]
    · simp [Provider.liveUserIds, Provider.identity, hm,
        filter_connected_closed p.sockets hall]

/-- C6: every sequence of identity transitions (absent to present, present to
absent, present to another value, teardown), starting from the mount, runs to
a state; with the identity read off the transitions themselves (the last
`userInfo` set, none after teardown), the number of channels opened and not
yet disconnected in that state is exactly one when that identity is present
and zero when it is absent, and the one live channel carries that identity's
id as its `userId`. -/
theorem live_channels_match_identity (u0 : Option UserInfo) (es : List LifecycleEvent) :
    ∃ p, Provider.lifecycle u0 es = .ok p ∧
      p.liveChannels = (if (servedIdentity u0 es).isSome then 1 else 0) ∧
      p.liveUserIds = ((servedIdentity u0 es).map UserInfo.id).toList := by
  obtain ⟨p, hp, hpc⟩ := lifecycle_consistent u0 es
  have hid := lifecycle_identity u0 es p hp
  refine ⟨p, hp, ?_, ?_⟩
  · rw [← hid]
    exact liveChannels_consistent p hpc
  · rw [← hid]
    exact liveUserIds_consistent p hpc

/-- C7, as stated, fails: after the identity `A` is cleared, the only call the
cleanup made on the channel is `disconnect`, no subscription was detached, the
three listeners are still registered on the closed handle, and a
`"recieveMessage"` event dispatched to it still performs the Roster Store
update. -/
theorem cleanup_keeps_listeners :
    Provider.lifecycle (some ⟨"A"⟩) [.setUserInfo none]
      = .ok ⟨true, none, some 0, false,
          [⟨"A", true,
            [("connect", .logConnected), ("recieveMessage", .handleRecieveMessage),
             ("recieve-channel-message", .handleRecieveChannelMessage)], false⟩],
          [.io 0 "A", .on 0 "connect", .on 0 "recieveMessage",
           .on 0 "recieve-channel-message", .disconnect 0]⟩ ∧
    (Socket.mk "A" true
        [("connect", .logConnected), ("recieveMessage", .handleRecieveMessage),
         ("recieve-channel-message", .handleRecieveChannelMessage)] false).dispatch
        "recieveMessage" ⟨none, none⟩ ⟨some ⟨some "u3"⟩, some ⟨some "A"⟩, none, "late"⟩
      = [⟨[.addContactsInDMContacts ⟨some ⟨some "u3"⟩, some ⟨some "A"⟩, none, "late"⟩],
          none⟩] :=
  ⟨rfl, by decide⟩

/-- C7, amended: on every transition away from an identity (the identity is
cleared or replaced, or the component is torn down), the effect's cleanup
makes exactly one call on the channel, `disconnect`, and detaches no
subscription: the handle is closed with its three listeners still registered,
so that an event dispatched to that handle after the cleanup still runs its
listener as on a live channel. -/
theorem cleanup_only_disconnects (u0 : Option UserInfo) (es : List LifecycleEvent)
    (p : Provider) (A : UserInfo) (st : Selection) (m : Message)
    (hreach : Provider.lifecycle u0 es = .ok p) (hA : p.identity = some A) :
    ∃ a c, p.socketCurrent = some a ∧ p.runCleanup = .ok c ∧
      c.log = p.log ++ [.disconnect a] ∧
      c.sockets[a]? = some ⟨A.id, true, effectListeners, false⟩ ∧
      (∀ v, p.step (.setUserInfo v) = c.effect v) ∧
      p.step .unmount = .ok { c with mounted := false, cleanup := false } ∧
      (Socket.mk A.id true effectListeners false).dispatch "recieveMessage" st m
        = [handleRecieveMessage st m] ∧
      (Socket.mk A.id true effectListeners false).dispatch "recieve-channel-message" st m
        = [handleRecieveChannelMessage st m] := by
  obtain ⟨q, hq, hqc⟩ := lifecycle_consistent u0 es
  rw [hreach] at hq
  cases hq
  rcases hqc with ⟨hm, hcl, closed, u, hs, hclosed, hcur, hu⟩ | ⟨hcl, hall, hu⟩
  · have huA : u = A := by
      simp [Provider.identity, hm, hu] at hA
      exact hA
    subst huA
    have hrun := runCleanup_consistent p closed _ hs hcur
    have hstep := step_mounted_cleanup p hm hcl
    refine ⟨closed.length, _, hcur, hrun, rfl, ?_, ?_, ?_, ?_, ?_⟩
    · simp
    · intro v
      rw [hstep.1 v, hrun]
    · rw [hstep.2, hrun]
    · simp [Socket.dispatch, effectListeners, Listener.invoke]
    · simp [Socket.dispatch, effectListeners, Listener.invoke]
  · by_cases hm : p.mounted = true
    · simp [Provider.identity, hm, hu hm] at hA
    · simp [Provider.identity, hm] at hA

theorem cleanup_only_disconnects_witness :
    ∃ a c, (Provider.mk true (some ⟨"A"⟩) (some 0) true
          [⟨"A", true, effectListeners, true⟩] (effectCalls 0 "A")).socketCurrent = some a ∧
      (Provider.mk true (some ⟨"A"⟩) (some 0) true
          [⟨"A", true, effectListeners, true⟩] (effectCalls 0 "A")).runCleanup = .ok c ∧
      c.log = effectCalls 0 "A" ++ [.disconnect a] ∧
      c.sockets[a]? = some ⟨"A", true, effectListeners, false⟩ :=
  have h := cleanup_only_disconnects (some ⟨"A"⟩) []
    ⟨true, some ⟨"A"⟩, some 0, true, [⟨"A", true, effectListeners, true⟩], effectCalls 0 "A"⟩
    ⟨"A"⟩ ⟨none, none⟩ ⟨some ⟨some "u3"⟩, some ⟨some "A"⟩, none, "late"⟩ rfl rfl
  match h with
  | ⟨a, c, h1, h2, h3, h4, _⟩ => ⟨a, c, h1, h2, h3, h4⟩

/-- C8: in every reachable state that serves an identity `A`, a flip to an
identity `B` with another id disconnects the channel opened for `A` before
anything is opened for `B`, then opens a new handle (one that did not exist
before, while the handle of `A` stays closed with the parameters of `A`), whose
`userId` query parameter is the id of `B` and not that of `A`. -/
theorem identity_swap_opens_new_channel (u0 : Option UserInfo) (es : List LifecycleEvent)
    (p : Provider) (A B : UserInfo)
    (hreach : Provider.lifecycle u0 es = .ok p) (hA : p.identity = some A)
    (hAB : A.id ≠ B.id) :
    ∃ a q, p.socketCurrent = some a ∧ a < p.sockets.length ∧
      p.sockets[a]? = some ⟨A.id, true, effectListeners, true⟩ ∧
      p.step (.setUserInfo (some B)) = .ok q ∧
      q.log = p.log ++ .disconnect a :: effectCalls p.sockets.length B.id ∧
      q.socketCurrent = some p.sockets.length ∧
      q.sockets.length = p.sockets.length + 1 ∧
      q.sockets[a]? = some ⟨A.id, true, effectListeners, false⟩ ∧
      q.sockets[p.sockets.length]? = some ⟨B.id, true, effectListeners, true⟩ ∧
      q.identity = some B ∧
      (∀ s, q.sockets[p.sockets.length]? = some s → s.userId = B.id ∧ s.userId ≠ A.id) := by
  obtain ⟨q, hq, hqc⟩ := lifecycle_consistent u0 es
  rw [hreach] at hq
  cases hq
  rcases hqc with ⟨hm, hcl, closed, u, hs, hclosed, hcur, hu⟩ | ⟨hcl, hall, hu⟩
  · have huA : u = A := by
      simp [Provider.identity, hm, hu] at hA
      exact hA
    subst huA
    have hrun := runCleanup_consistent p closed _ hs hcur
    have hstep := step_mounted_cleanup p hm hcl
    have hq : p.step (.setUserInfo (some B)) = .ok
        { mounted := p.mounted, userInfo := some B,
          socketCurrent := some (closed ++ [Socket.mk u.id true effectListeners false]).length,
          cleanup := true,
          sockets := (closed ++ [Socket.mk u.id true effectListeners false])
            ++ [⟨B.id, true, effectListeners, true⟩],
          log := (p.log ++ [.disconnect closed.length])
            ++ effectCalls (closed ++ [Socket.mk u.id true effectListeners false]).length B.id } := by
      rw [hstep.1, hrun]
      exact effect_some _ B
    have hget := getElem?_last_two closed (Socket.mk u.id true effectListeners false)
      ⟨B.id, true, effectListeners, true⟩
    refine ⟨closed.length, _, hcur, by simp [hs], by simp [hs], hq, ?_, ?_, ?_, hget.1, ?_, ?_, ?_⟩
    · simp [hs]
    · simp [hs]
    · simp [hs]
    · rw [hs]
      simp only [List.length_append, List.length_singleton]
      exact hget.2
    · simp [Provider.identity, hm]
    · intro s h
      rw [hs] at h
      simp only [List.length_append, List.length_singleton] at h
      rw [hget.2] at h
      cases h
      exact ⟨rfl, fun h => hAB h.symm⟩
  · by_cases hm : p.mounted = true
    · simp [Provider.identity, hm, hu hm] at hA
    · simp [Provider.identity, hm] at hA

theorem identity_swap_opens_new_channel_witness :
    ∃ a q, (Provider.mk true (some ⟨"A"⟩) (some 0) true
          [⟨"A", true, effectListeners, true⟩] (effectCalls 0 "A")).socketCurrent = some a ∧
      (Provider.mk true (some ⟨"A"⟩) (some 0) true
          [⟨"A", true, effectListeners, true⟩] (effectCalls 0 "A")).step
          (.setUserInfo (some ⟨"B"⟩)) = .ok q ∧
      q.log = effectCalls 0 "A" ++ .disconnect a :: effectCalls 1 "B" ∧
      q.sockets[1]? = some ⟨"B", true, effectListeners, true⟩ :=
  have h := identity_swap_opens_new_channel (some ⟨"A"⟩) []
    ⟨true, some ⟨"A"⟩, some 0, true, [⟨"A", true, effectListeners, true⟩], effectCalls 0 "A"⟩
    ⟨"A"⟩ ⟨"B"⟩ rfl rfl (by decide)
  match h with
  | ⟨a, q, h1, _, _, h4, h5, _, _, _, h9, _⟩ => ⟨a, q, h1, h4, h5, h9⟩

end ChatterSplash
